import Mathlib

/-!
Verification development for the PiTempHumid repository.

The Python source is shallowly embedded:
* floats are idealised as rationals (`ℚ`), machine timestamps as integers;
* the SQLite `readings` table is a `List Row`, and the four straight-line SQL
  statements of `storage.py` become list operations;
* the driver-selection / retry / fallback logic of `cli.py`'s `_read_sensor`
  becomes a deterministic function over an explicit environment describing
  which bindings import, whether the device constructs, and what each read
  attempt yields;
* `gui.py`'s `pan_by_pixels` / `zoom_at` become integer-millisecond range
  transforms, with Python's `int()` truncation made explicit.
-/

/-- Python's `round(x)` (no extra digits) rounds half to even.  `round(x, 1)`
is `pyRoundHalfEven` applied to `10 * x`, divided by ten again. -/
def pyRoundHalfEven (x : ℚ) : ℤ :=
  if x - (⌊x⌋ : ℚ) < 1/2 then ⌊x⌋
  else if 1/2 < x - (⌊x⌋ : ℚ) then ⌊x⌋ + 1
  else if ⌊x⌋ % 2 = 0 then ⌊x⌋ else ⌊x⌋ + 1

/-- Python's `round(x, 1)`: one decimal digit, ties to even. -/
def pyRound1 (x : ℚ) : ℚ := (pyRoundHalfEven (10 * x) : ℚ) / 10

/-- Python's `int(x)` on a float: truncation toward zero. -/
def pyInt (x : ℚ) : ℤ := if 0 ≤ x then ⌊x⌋ else ⌈x⌉

/-- One row of the `readings` table created by `storage.init_db`
(`id` is the implicit list position; `ts` is the UTC timestamp, modelled as an
integer because ISO-8601 UTC strings produced by `datetime.isoformat` compare
lexicographically in chronological order). -/
structure Row where
  ts : ℤ
  temperature_c : ℚ
  humidity : ℚ
  sensor : Option String
  pin : Option ℤ
deriving DecidableEq, Repr

/-- `storage.save_reading`: a single `INSERT INTO readings ... VALUES (...)`
with a fresh `datetime.now(timezone.utc)` timestamp `ts`. -/
def save_reading (db : List Row) (ts : ℤ) (temperature_c humidity : ℚ)
    (sensor : Option String) (pin : Option ℤ) : List Row :=
  db ++ [⟨ts, temperature_c, humidity, sensor, pin⟩]

/-- The `ORDER BY ts DESC` comparison used by `get_recent_readings`. -/
def tsDescRel (a b : Row) : Prop := b.ts ≤ a.ts

instance : DecidableRel tsDescRel := fun a b => inferInstanceAs (Decidable (b.ts ≤ a.ts))

instance : IsTotal Row tsDescRel := ⟨fun a b => le_total b.ts a.ts⟩

instance : IsTrans Row tsDescRel := ⟨fun _ _ _ h1 h2 => le_trans h2 h1⟩

/-- `storage.get_recent_readings`: `SELECT ... ORDER BY ts DESC LIMIT ?`,
then `rows.reverse()` so callers get oldest-first. -/
def get_recent_readings (db : List Row) (limit : ℕ) : List Row :=
  ((List.insertionSort tsDescRel db).take limit).reverse

/-- Seconds per day, used by `timedelta(days=months * 30)`. -/
def secondsPerDay : ℤ := 86400

/-- `storage.prune_old_readings`: `DELETE FROM readings WHERE ts < cutoff`
with `cutoff = now - timedelta(days=months * 30)`; returns the surviving table
together with `cur.rowcount`, the number of deleted rows. -/
def prune_old_readings (db : List Row) (now : ℤ) (months : ℤ) : List Row × ℕ :=
  (db.filter (fun r => decide (¬ r.ts < now - months * 30 * secondsPerDay)),
   db.countP (fun r => decide (r.ts < now - months * 30 * secondsPerDay)))

/-- Python `str.upper()` for the ASCII names used here. -/
def pyUpper (s : String) : String := ⟨s.data.map Char.toUpper⟩

/-- Python `str.lower()` for the ASCII names used here. -/
def pyLower (s : String) : String := ⟨s.data.map Char.toLower⟩

/-- Python `str.strip()`: drop surrounding whitespace. -/
def pyStrip (s : String) : String :=
  ⟨((s.data.dropWhile Char.isWhitespace).reverse.dropWhile Char.isWhitespace).reverse⟩

/-- Outcome of touching `dht_device.temperature` / `dht_device.humidity` once
inside the retry loop of `_read_sensor` (cli.py lines 143-157): both values
present and convertible, a `None` among them, or a raised exception. -/
inductive Attempt where
  | ok (t h : ℚ)
  | missing
  | exc
deriving DecidableEq, Repr

/-- Whether an attempt yielded both a temperature and a humidity value. -/
def Attempt.isOk : Attempt → Bool
  | .ok _ _ => true
  | _ => false

/-- Environment of the modern CircuitPython `adafruit_dht` branch of
`_read_sensor` (cli.py lines 84-172): whether the binding imports, which
sensor classes the module exposes, whether device construction succeeds (the
`board`-pin resolution chain of lines 106-121 only picks the constructor
argument and is folded into this flag), the outcome of each read attempt, and
whether the device exposes one of the `exit`/`close`/`deinit`/`shutdown`
teardown methods. -/
structure ModernEnv where
  importOk : Bool
  hasDHT22 : Bool
  hasDHT11 : Bool
  constructOk : Bool
  attempts : ℕ → Attempt
  teardownExposed : Bool

/-- Environment of the legacy `Adafruit_DHT` fallback (cli.py lines 179-207):
whether the package imports and what `Adafruit_DHT.read_retry` returns, as a
`(humidity, temperature)` pair of optional values. -/
structure LegacyEnv where
  importOk : Bool
  readRetry : Option ℚ × Option ℚ

/-- Full environment of one `_read_sensor` call: the
`PI_TEMP_DHT_DRIVER` environment variable plus both driver environments. -/
structure Env where
  driverPref : String
  modern : ModernEnv
  legacy : LegacyEnv

/-- Observable trace of the modern branch: how many read attempts ran, how
many `time.sleep(1)` pauses ran, whether a device was constructed, and whether
its teardown method was invoked during cleanup. -/
structure ModernTrace where
  attemptsMade : ℕ
  sleeps : ℕ
  constructed : Bool
  teardownInvoked : Bool
deriving DecidableEq, Repr

/-- The empty trace: the modern branch never got to a device. -/
def emptyTrace : ModernTrace := ⟨0, 0, false, false⟩

/-- The `for _ in range(5)` retry loop of `_read_sensor` (cli.py lines
141-157): each failed attempt (a `None` value or an exception) is followed by
`time.sleep(1)` and the next attempt; a successful attempt rounds both values
to one decimal and breaks.  Returns the optional reading, the number of
attempts made, and the number of one-second sleeps. -/
def dhtReadLoop (att : ℕ → Attempt) : ℕ → ℕ → Option (ℚ × ℚ) × ℕ × ℕ
  | 0, _ => (none, 0, 0)
  | fuel + 1, i =>
    match att i with
    | .ok t h => (some (pyRound1 t, pyRound1 h), 1, 0)
    | .missing =>
      ((dhtReadLoop att fuel (i + 1)).1,
       (dhtReadLoop att fuel (i + 1)).2.1 + 1,
       (dhtReadLoop att fuel (i + 1)).2.2 + 1)
    | .exc =>
      ((dhtReadLoop att fuel (i + 1)).1,
       (dhtReadLoop att fuel (i + 1)).2.1 + 1,
       (dhtReadLoop att fuel (i + 1)).2.2 + 1)

/-- Selection of the CircuitPython sensor class (cli.py lines 98-103):
`DHT22` for keys `AM2302`/`DHT22`, `DHT11` for key `DHT11`, and `None`
otherwise; `getattr(adafruit_dht, ..., None)` may itself yield `None` when the
module lacks the class. -/
def sensorClsFound (key : String) (m : ModernEnv) : Bool :=
  if key = "AM2302" ∨ key = "DHT22" then m.hasDHT22
  else if key = "DHT11" then m.hasDHT11
  else false

/-- The modern `adafruit_dht` branch of `_read_sensor` (cli.py lines 85-172).
The whole block sits inside `contextlib.suppress(Exception)`, so any early
failure (import, missing class, construction) just falls through with nothing
read.  After a successful construction the tracker global `_DHT_DEVICE` is
set, the retry loop runs, every exposed teardown method is invoked under its
own `suppress`, and the `finally` resets the tracker to `None`.  Returns the
optional reading, the trace, and the tracker value after the branch. -/
def modernRead (key : String) (m : ModernEnv) (tracker : Option Unit) :
    Option (ℚ × ℚ) × ModernTrace × Option Unit :=
  if m.importOk && sensorClsFound key m && m.constructOk then
    ((dhtReadLoop m.attempts 5 0).1,
     ⟨(dhtReadLoop m.attempts 5 0).2.1, (dhtReadLoop m.attempts 5 0).2.2,
      true, m.teardownExposed⟩,
     none)
  else (none, emptyTrace, tracker)

/-- Whether the legacy if/elif chain (cli.py lines 187-192) accepts the key. -/
def legacySensorSupported (key : String) : Bool :=
  key = "AM2302" ∨ key = "DHT22" ∨ key = "DHT11"

/-- The legacy `Adafruit_DHT` fallback of `_read_sensor` (cli.py lines
179-207): raise if the package is missing, raise on an unsupported sensor
type, call `read_retry`, raise if either value is `None`, otherwise clear the
tracker in the `finally` block and return both values rounded to one decimal.
Errors are the `RuntimeError` messages of the source; the second component is
the tracker after the call. -/
def legacyRead (sensorName : String) (l : LegacyEnv) (tracker : Option Unit) :
    Except String (ℚ × ℚ) × Option Unit :=
  if l.importOk = false then
    (.error "no DHT driver available: install \x27adafruit_dht\x27 or \x27Adafruit_DHT\x27",
     tracker)
  else if legacySensorSupported (pyUpper (pyStrip sensorName)) = false then
    (.error ("unsupported sensor type: " ++ sensorName), tracker)
  else
    match l.readRetry with
    | (some humidity, some temperature) =>
      (.ok (pyRound1 temperature, pyRound1 humidity), none)
    | _ => (.error "sensor returned no data", tracker)

/-- The full observable outcome of one `_read_sensor` call: the returned pair
or the raised `RuntimeError` message, the modern-branch trace, and the final
value of the `_DHT_DEVICE` module global. -/
structure SensorOutcome where
  result : Except String (ℚ × ℚ)
  modern : ModernTrace
  tracker : Option Unit

/-- `cli._read_sensor` (cli.py lines 74-207).  The modern branch runs when
`PI_TEMP_DHT_DRIVER` is `auto` or `adafruit`; if it produces no reading,
control falls through to the legacy branch.  (The source's
`elif _driver_pref == "adafruit": raise ...` at lines 173-177 is unreachable:
that value already takes the first branch.) -/
def _read_sensor (sensorName : String) (env : Env) (tracker0 : Option Unit) :
    SensorOutcome :=
  if pyLower (pyStrip env.driverPref) = "auto" ∨
     pyLower (pyStrip env.driverPref) = "adafruit" then
    match (modernRead (pyUpper (pyStrip sensorName)) env.modern tracker0).1 with
    | some v =>
      ⟨.ok v, (modernRead (pyUpper (pyStrip sensorName)) env.modern tracker0).2.1,
       (modernRead (pyUpper (pyStrip sensorName)) env.modern tracker0).2.2⟩
    | none =>
      ⟨(legacyRead sensorName env.legacy
          (modernRead (pyUpper (pyStrip sensorName)) env.modern tracker0).2.2).1,
       (modernRead (pyUpper (pyStrip sensorName)) env.modern tracker0).2.1,
       (legacyRead sensorName env.legacy
          (modernRead (pyUpper (pyStrip sensorName)) env.modern tracker0).2.2).2⟩
  else
    ⟨(legacyRead sensorName env.legacy tracker0).1, emptyTrace,
     (legacyRead sensorName env.legacy tracker0).2⟩

/-- `cli._read_simulated` (cli.py lines 68-71), with the two
`random.random()` draws (each in `[0, 1)`) passed explicitly. -/
def _read_simulated (u1 u2 : ℚ) : ℚ × ℚ :=
  (pyRound1 (20 + u1 * 10), pyRound1 (30 + u2 * 50))

/-- Temperature as echoed by the CLI: converted with
`round(temp_c * 9.0 / 5.0 + 32.0, 1)` when `--fahrenheit` is set
(cli.py lines 267-272). -/
def cliDisplayTemp (fahrenheit : Bool) (c : ℚ) : ℚ :=
  if fahrenheit then pyRound1 (c * 9 / 5 + 32) else c

/-- Observable output of the CLI `read` command: the values echoed to stdout,
the lines written to stderr, and the `sys.exit` status if any. -/
structure CliResult where
  stdout : List (ℚ × ℚ)
  stderr : List String
  exitCode : Option ℕ
deriving DecidableEq, Repr

/-- The `for _ in range(count)` loop of the CLI `read` command (cli.py lines
240-281), modelled from iteration `i` on: each iteration reads (simulated
draws come from `uDraws`, hardware reads see environment `envs i`), a
`RuntimeError` is caught, reported on stderr with the simulate hint, and ends
the process with exit status 2; otherwise the reading is echoed and the loop
continues with the tracker left by the read.  Database saving is elided: it
only touches the optional `--save-db` side channel. -/
def readCmd (simulate fahrenheit : Bool) (sensorName : String)
    (uDraws : ℕ → ℚ × ℚ) (envs : ℕ → Env) :
    ℕ → ℕ → Option Unit → CliResult
  | 0, _, _ => ⟨[], [], none⟩
  | n + 1, i, tracker =>
    if simulate then
      ⟨(cliDisplayTemp fahrenheit (_read_simulated (uDraws i).1 (uDraws i).2).1,
        (_read_simulated (uDraws i).1 (uDraws i).2).2) ::
        (readCmd simulate fahrenheit sensorName uDraws envs n (i + 1) tracker).stdout,
       (readCmd simulate fahrenheit sensorName uDraws envs n (i + 1) tracker).stderr,
       (readCmd simulate fahrenheit sensorName uDraws envs n (i + 1) tracker).exitCode⟩
    else
      match (_read_sensor sensorName (envs i) tracker).result with
      | .error e =>
        ⟨[], ["Error: " ++ e, "Tip: run with --simulate to produce sample values."],
         some 2⟩
      | .ok th =>
        ⟨(cliDisplayTemp fahrenheit th.1, th.2) ::
          (readCmd simulate fahrenheit sensorName uDraws envs n (i + 1)
            (_read_sensor sensorName (envs i) tracker).tracker).stdout,
         (readCmd simulate fahrenheit sensorName uDraws envs n (i + 1)
            (_read_sensor sensorName (envs i) tracker).tracker).stderr,
         (readCmd simulate fahrenheit sensorName uDraws envs n (i + 1)
            (_read_sensor sensorName (envs i) tracker).tracker).exitCode⟩

/-- Shared clamping tail of `pan_by_pixels` and `zoom_at` (gui.py lines
918-928 and 954-963): if the new start lands before the epoch, pin it to 0
keeping the width `ne - ns`; then, if the new end lands in the future, shift
the window back so that it ends at `now`, flooring the start at 0. -/
def clampToEpochAndNow (ns ne now : ℤ) : ℤ × ℤ :=
  if ns < 0 then
    if ne - ns > now then (max 0 (0 - (ne - ns - now)), now) else (0, ne - ns)
  else
    if ne > now then (max 0 (ns - (ne - now)), now) else (ns, ne)

/-- `MainWindow.pan_by_pixels` (gui.py lines 900-936) acting on the recorded
visible range `(start_, end_)`: convert the pixel delta into milliseconds via
`ms_per_px = (end - start) / plot_width`, truncate with `int()`, shift both
ends, then clamp to `[0, now]`.  A non-positive plot width returns early with
the range unchanged. -/
def pan_by_pixels (start_ end_ : ℤ) (dx w : ℚ) (now : ℤ) : ℤ × ℤ :=
  if w ≤ 0 then (start_, end_)
  else
    clampToEpochAndNow
      (start_ + pyInt (dx * (((end_ - start_ : ℤ) : ℚ) / w)))
      (end_ + pyInt (dx * (((end_ - start_ : ℤ) : ℚ) / w)))
      now

/-- `MainWindow.zoom_at` (gui.py lines 938-971) acting on the recorded
visible range: take the timestamp under the pointer
(`center = int(start + (end - start) * rel)` with `rel` the clamped pixel
fraction), halve the width scaled by `1 / factor`
(`half = int((end - start) / 2.0 / factor)`), produce
`(center - half, center + half)`, then clamp to `[0, now]`.  A non-positive
widget width returns early with the range unchanged. -/
def zoom_at (start_ end_ : ℤ) (factor : ℚ) (mouseX widgetWidth : ℤ)
    (now : ℤ) : ℤ × ℤ :=
  if widgetWidth ≤ 0 then (start_, end_)
  else
    clampToEpochAndNow
      (pyInt ((start_ : ℚ) + ((end_ - start_ : ℤ) : ℚ) *
          (max 0 (min 1 ((mouseX : ℚ) / (widgetWidth : ℚ))))) -
        pyInt (((end_ - start_ : ℤ) : ℚ) / 2 / factor))
      (pyInt ((start_ : ℚ) + ((end_ - start_ : ℤ) : ℚ) *
          (max 0 (min 1 ((mouseX : ℚ) / (widgetWidth : ℚ))))) +
        pyInt (((end_ - start_ : ℤ) : ℚ) / 2 / factor))
      now

/-- Fixture: a small stored table used to instantiate the storage theorems. -/
def rowA : Row := ⟨0, 21, 45, some "AM2302", some 4⟩

/-- Fixture: second stored row. -/
def rowB : Row := ⟨100, 22, 46, some "AM2302", some 4⟩

/-- Fixture: third stored row. -/
def rowC : Row := ⟨200, 23, 44, some "AM2302", some 4⟩

/-- Fixture: a three-row table ordered oldest first. -/
def dbABC : List Row := [rowA, rowB, rowC]

/-- Fixture: an environment whose modern driver constructs a device but every
read attempt raises, and whose legacy package is absent. -/
def envModernAllFail : Env :=
  { driverPref := "auto"
    modern :=
      { importOk := true, hasDHT22 := true, hasDHT11 := false,
        constructOk := true, attempts := fun _ => Attempt.exc,
        teardownExposed := true }
    legacy := { importOk := false, readRetry := (none, none) } }

theorem pyRoundHalfEven_bounds (x : ℚ) :
    x - 1/2 ≤ (pyRoundHalfEven x : ℚ) ∧ (pyRoundHalfEven x : ℚ) ≤ x + 1/2 := by
  have h1 : (⌊x⌋ : ℚ) ≤ x := Int.floor_le x
  have h2 : x < (⌊x⌋ : ℚ) + 1 := Int.lt_floor_add_one x
  unfold pyRoundHalfEven
  split_ifs <;> constructor <;> push_cast <;> linarith

theorem pyRoundHalfEven_mem (lo hi : ℤ) {x : ℚ} (h1 : (lo : ℚ) ≤ x)
    (h2 : x < (hi : ℚ)) : lo ≤ pyRoundHalfEven x ∧ pyRoundHalfEven x ≤ hi := by
  obtain ⟨ha, hb⟩ := pyRoundHalfEven_bounds x
  constructor
  · have h3 : (lo : ℚ) - 1 < (pyRoundHalfEven x : ℚ) := by linarith
    have h4 : lo - 1 < pyRoundHalfEven x := by exact_mod_cast h3
    omega
  · have h3 : (pyRoundHalfEven x : ℚ) < (hi : ℚ) + 1 := by linarith
    have h4 : pyRoundHalfEven x < hi + 1 := by exact_mod_cast h3
    omega

theorem pyRound1_mem (lo hi : ℤ) {x : ℚ} (h1 : (lo : ℚ) ≤ 10 * x)
    (h2 : 10 * x < (hi : ℚ)) :
    (lo : ℚ) / 10 ≤ pyRound1 x ∧ pyRound1 x ≤ (hi : ℚ) / 10 := by
  obtain ⟨ha, hb⟩ := pyRoundHalfEven_mem lo hi h1 h2
  unfold pyRound1
  constructor
  · have h3 : (lo : ℚ) ≤ (pyRoundHalfEven (10 * x) : ℚ) := by exact_mod_cast ha
    linarith
  · have h3 : (pyRoundHalfEven (10 * x) : ℚ) ≤ (hi : ℚ) := by exact_mod_cast hb
    linarith

/-- C5: for every draw of the underlying random source (two `random.random()`
values in `[0, 1)`), `_read_simulated` returns a temperature in
`[20.0, 30.0]` and a humidity in `[30.0, 80.0]`, each rounded to one decimal
place (the result times ten is an integer). -/
theorem C5_simulated_ranges (u1 u2 : ℚ) (h1 : 0 ≤ u1) (h2 : u1 < 1)
    (h3 : 0 ≤ u2) (h4 : u2 < 1) :
    20 ≤ (_read_simulated u1 u2).1 ∧ (_read_simulated u1 u2).1 ≤ 30 ∧
    30 ≤ (_read_simulated u1 u2).2 ∧ (_read_simulated u1 u2).2 ≤ 80 ∧
    (∃ n : ℤ, (_read_simulated u1 u2).1 = (n : ℚ) / 10) ∧
    (∃ n : ℤ, (_read_simulated u1 u2).2 = (n : ℚ) / 10) := by
  have ht := pyRound1_mem 200 300 (x := 20 + u1 * 10) (by push_cast; linarith)
    (by push_cast; linarith)
  have hh := pyRound1_mem 300 800 (x := 30 + u2 * 50) (by push_cast; linarith)
    (by push_cast; linarith)
  refine ⟨?_, ?_, ?_, ?_,
    ⟨pyRoundHalfEven (10 * (20 + u1 * 10)), rfl⟩,
    ⟨pyRoundHalfEven (10 * (30 + u2 * 50)), rfl⟩⟩
  · have := ht.1
    show (20 : ℚ) ≤ pyRound1 (20 + u1 * 10)
    norm_num at this
    linarith
  · have := ht.2
    show pyRound1 (20 + u1 * 10) ≤ (30 : ℚ)
    norm_num at this
    linarith
  · have := hh.1
    show (30 : ℚ) ≤ pyRound1 (30 + u2 * 50)
    norm_num at this
    linarith
  · have := hh.2
    show pyRound1 (30 + u2 * 50) ≤ (80 : ℚ)
    norm_num at this
    linarith

theorem C5_simulated_ranges_witness :
    20 ≤ (_read_simulated 0 0).1 ∧ (_read_simulated 0 0).1 ≤ 30 ∧
    30 ≤ (_read_simulated 0 0).2 ∧ (_read_simulated 0 0).2 ≤ 80 ∧
    (∃ n : ℤ, (_read_simulated 0 0).1 = (n : ℚ) / 10) ∧
    (∃ n : ℤ, (_read_simulated 0 0).2 = (n : ℚ) / 10) :=
  C5_simulated_ranges 0 0 (by norm_num) (by norm_num) (by norm_num) (by norm_num)

theorem countP_filter_not_split {α : Type} (p : α → Bool) (l : List α) :
    l.countP p + (l.filter fun a => !(p a)).length = l.length := by
  induction l with
  | nil => simp
  | cons a l ih =>
    cases hp : p a <;> simp [List.countP_cons, List.filter_cons, hp] <;> omega

/-- C9: `save_reading` is append-only — the new table has exactly one more
row, the new row sits at the end carrying the given timestamp, temperature,
humidity, sensor and pin, and every previously stored position is unchanged. -/
theorem C9_save_append_only (db : List Row) (ts : ℤ) (t h : ℚ)
    (s : Option String) (p : Option ℤ) :
    (save_reading db ts t h s p).length = db.length + 1 ∧
    ∀ i : ℕ, (save_reading db ts t h s p)[i]? =
      if i = db.length then some ⟨ts, t, h, s, p⟩ else db[i]? := by
  constructor
  · simp [save_reading]
  · intro i
    have hlen : (save_reading db ts t h s p).length = db.length + 1 := by
      simp [save_reading]
    rcases Nat.lt_trichotomy i db.length with hlt | heq | hgt
    · rw [if_neg (by omega), save_reading, List.getElem?_append, if_pos hlt]
    · subst heq
      simp [save_reading]
    · have e1 : (save_reading db ts t h s p)[i]? = none :=
        List.getElem?_eq_none (by omega)
      have e2 : db[i]? = none := List.getElem?_eq_none (by omega)
      rw [if_neg (by omega), e1, e2]

/-- C2: `prune_old_readings` deletes exactly the rows whose timestamp is
strictly before `now - months * 30 days`, keeps every other row (in
particular a row exactly at the cutoff) untouched and in order, and returns
the number of deleted rows. -/
theorem C2_prune_exact (db : List Row) (now months : ℤ) :
    ((prune_old_readings db now months).1).Sublist db ∧
    (∀ r ∈ db, r.ts < now - months * 30 * secondsPerDay →
      r ∉ (prune_old_readings db now months).1) ∧
    (∀ r ∈ db, ¬ r.ts < now - months * 30 * secondsPerDay →
      r ∈ (prune_old_readings db now months).1) ∧
    (∀ r ∈ db, r.ts = now - months * 30 * secondsPerDay →
      r ∈ (prune_old_readings db now months).1) ∧
    (prune_old_readings db now months).2 +
      ((prune_old_readings db now months).1).length = db.length := by
  refine ⟨List.filter_sublist _, ?_, ?_, ?_, ?_⟩
  · intro r _ hlt hmem
    have h2 := (List.mem_filter.1 hmem).2
    simp only [decide_eq_true_eq] at h2
    exact h2 hlt
  · intro r hr hn
    exact List.mem_filter.2 ⟨hr, by simpa using hn⟩
  · intro r hr heq
    exact List.mem_filter.2 ⟨hr, by simp [heq]⟩
  · have := countP_filter_not_split
      (fun r : Row => decide (r.ts < now - months * 30 * secondsPerDay)) db
    simp only [prune_old_readings]
    rw [show (fun r : Row => decide (¬ r.ts < now - months * 30 * secondsPerDay))
        = (fun r : Row => !decide (r.ts < now - months * 30 * secondsPerDay))
      from funext fun r => by rw [decide_not]]
    exact this

theorem C2_prune_exact_witness :
    rowA ∉ (prune_old_readings dbABC 7776100 3).1 ∧
    rowB ∈ (prune_old_readings dbABC 7776100 3).1 ∧
    rowC ∈ (prune_old_readings dbABC 7776100 3).1 ∧
    (prune_old_readings dbABC 7776100 3).2 +
      ((prune_old_readings dbABC 7776100 3).1).length = dbABC.length :=
  ⟨(C2_prune_exact dbABC 7776100 3).2.1 rowA (by simp [dbABC])
      (by norm_num [rowA, secondsPerDay]),
   (C2_prune_exact dbABC 7776100 3).2.2.2.1 rowB (by simp [dbABC])
      (by norm_num [rowB, secondsPerDay]),
   (C2_prune_exact dbABC 7776100 3).2.2.1 rowC (by simp [dbABC])
      (by norm_num [rowC, secondsPerDay]),
   (C2_prune_exact dbABC 7776100 3).2.2.2.2⟩

/-- C3: `get_recent_readings` returns at most `limit` rows, they are the most
recent rows of the table (every row it drops is no newer than every row it
returns), the sequence is ordered oldest-to-newest (non-decreasing in
timestamp), and every returned row comes from the table. -/
theorem C3_recent_bounded_sorted (db : List Row) (n : ℕ) :
    (get_recent_readings db n).length ≤ n ∧
    (get_recent_readings db n).Pairwise (fun a b => a.ts ≤ b.ts) ∧
    (∀ s ∈ (List.insertionSort tsDescRel db).drop n,
      ∀ r ∈ get_recent_readings db n, s.ts ≤ r.ts) ∧
    (∀ r ∈ get_recent_readings db n, r ∈ db) := by
  have hsort : (List.insertionSort tsDescRel db).Pairwise tsDescRel :=
    List.sorted_insertionSort tsDescRel db
  refine ⟨?_, ?_, ?_, ?_⟩
  · rw [get_recent_readings, List.length_reverse, List.length_take]
    exact min_le_left _ _
  · have h1 : ((List.insertionSort tsDescRel db).take n).Pairwise tsDescRel :=
      hsort.sublist (List.take_sublist n _)
    rw [get_recent_readings, List.pairwise_reverse]
    exact h1
  · intro s hs r hr
    have hsplit := List.take_append_drop n (List.insertionSort tsDescRel db)
    rw [← hsplit] at hsort
    have h3 := (List.pairwise_append.1 hsort).2.2
    have hr' : r ∈ (List.insertionSort tsDescRel db).take n :=
      List.mem_reverse.1 hr
    exact h3 r hr' s hs
  · intro r hr
    have hr' : r ∈ (List.insertionSort tsDescRel db).take n :=
      List.mem_reverse.1 hr
    exact (List.mem_insertionSort tsDescRel).1 ((List.take_sublist n _).subset hr')

theorem C3_recent_bounded_sorted_witness :
    (get_recent_readings dbABC 2).length ≤ 2 ∧
    rowA.ts ≤ rowC.ts ∧ rowC ∈ dbABC :=
  ⟨(C3_recent_bounded_sorted dbABC 2).1,
   (C3_recent_bounded_sorted dbABC 2).2.2.1 rowA (by decide) rowC (by decide),
   (C3_recent_bounded_sorted dbABC 2).2.2.2 rowC (by decide)⟩

/-- C4: appending a reading with a timestamp fresher than everything stored
and then asking for the single most recent reading returns exactly that
reading, temperature and humidity untouched. -/
theorem C4_roundtrip (db : List Row) (ts : ℤ) (t h : ℚ) (s : Option String)
    (p : Option ℤ) (hfresh : ∀ r ∈ db, r.ts < ts) :
    get_recent_readings (save_reading db ts t h s p) 1 = [⟨ts, t, h, s, p⟩] := by
  have hperm := List.perm_insertionSort tsDescRel (db ++ [(⟨ts, t, h, s, p⟩ : Row)])
  have hsort : (List.insertionSort tsDescRel
      (db ++ [(⟨ts, t, h, s, p⟩ : Row)])).Pairwise tsDescRel :=
    List.sorted_insertionSort tsDescRel _
  rw [get_recent_readings, save_reading]
  cases hl : List.insertionSort tsDescRel (db ++ [(⟨ts, t, h, s, p⟩ : Row)]) with
  | nil =>
    exfalso
    have hlen := hperm.length_eq
    rw [hl] at hlen
    simp at hlen
  | cons a l2 =>
    have ha : a ∈ db ++ [(⟨ts, t, h, s, p⟩ : Row)] :=
      hperm.mem_iff.1 (by rw [hl]; exact List.mem_cons_self a l2)
    have haeq : a = (⟨ts, t, h, s, p⟩ : Row) := by
      rcases List.mem_append.1 ha with hdb | hone
      · exfalso
        have hlt : a.ts < ts := hfresh a hdb
        have hrm : (⟨ts, t, h, s, p⟩ : Row) ∈ a :: l2 := by
          rw [← hl]
          exact hperm.mem_iff.2 (List.mem_append.2 (Or.inr (by simp)))
        rcases List.mem_cons.1 hrm with heq | htl
        · have : ts < ts := by
            have := hlt
            rw [← heq] at this
            exact this
          exact absurd this (lt_irrefl ts)
        · have hrel : tsDescRel a (⟨ts, t, h, s, p⟩ : Row) := by
            rw [hl] at hsort
            exact (List.pairwise_cons.1 hsort).1 _ htl
          have : ts ≤ a.ts := hrel
          omega
      · exact List.mem_singleton.1 hone
    subst haeq
    simp

theorem C4_roundtrip_witness :
    (∀ r ∈ dbABC, r.ts < 300) ∧
    get_recent_readings
        (save_reading dbABC 300 24 47 (some "AM2302") (some 4)) 1 =
      [⟨300, 24, 47, some "AM2302", some 4⟩] :=
  ⟨by decide,
   C4_roundtrip dbABC 300 24 47 (some "AM2302") (some 4) (by decide)⟩

theorem dhtReadLoop_bounds (a : ℕ → Attempt) (f : ℕ) :
    ∀ i, (dhtReadLoop a f i).2.1 ≤ f ∧
      (dhtReadLoop a f i).2.1 ≤ (dhtReadLoop a f i).2.2 + 1 := by
  induction f with
  | zero => intro i; simp [dhtReadLoop]
  | succ f ih =>
    intro i
    have hrec := ih (i + 1)
    cases h : a i with
    | ok t hh => simp [dhtReadLoop, h]
    | missing => simp [dhtReadLoop, h]; omega
    | exc => simp [dhtReadLoop, h]; omega

theorem dhtReadLoop_all_fail (a : ℕ → Attempt) (f : ℕ) :
    ∀ i, (∀ j, j < f → (a (i + j)).isOk = false) →
      dhtReadLoop a f i = (none, f, f) := by
  induction f with
  | zero => intro i _; simp [dhtReadLoop]
  | succ f ih =>
    intro i hfail
    have h0 : (a i).isOk = false := by simpa using hfail 0 (Nat.succ_pos f)
    cases h : a i with
    | ok t hh => rw [h] at h0; simp [Attempt.isOk] at h0
    | missing =>
      have hrec := ih (i + 1) (fun j hj => by
        have hj1 := hfail (j + 1) (by omega)
        have hidx : i + (j + 1) = i + 1 + j := by omega
        rwa [hidx] at hj1)
      simp [dhtReadLoop, h, hrec]
    | exc =>
      have hrec := ih (i + 1) (fun j hj => by
        have hj1 := hfail (j + 1) (by omega)
        have hidx : i + (j + 1) = i + 1 + j := by omega
        rwa [hidx] at hj1)
      simp [dhtReadLoop, h, hrec]

/-- C1: with the modern binding selected and a device constructed, the read
is attempted at most 5 times, consecutive attempts are separated by a
one-second pause (the attempt count never exceeds the sleep count plus one),
and when none of the 5 attempts yields both values the attempt and sleep
budgets are exhausted and the call's result is exactly that of the legacy
`Adafruit_DHT` fallback (which delegates retrying to `read_retry`). -/
theorem C1_modern_retry_then_fallback (sensorName : String) (env : Env)
    (t0 : Option Unit)
    (hpref : pyLower (pyStrip env.driverPref) = "auto" ∨
      pyLower (pyStrip env.driverPref) = "adafruit")
    (himp : env.modern.importOk = true)
    (hcls : sensorClsFound (pyUpper (pyStrip sensorName)) env.modern = true)
    (hcon : env.modern.constructOk = true) :
    (_read_sensor sensorName env t0).modern.attemptsMade ≤ 5 ∧
    (_read_sensor sensorName env t0).modern.attemptsMade ≤
      (_read_sensor sensorName env t0).modern.sleeps + 1 ∧
    ((∀ i, i < 5 → (env.modern.attempts i).isOk = false) →
      (_read_sensor sensorName env t0).modern.attemptsMade = 5 ∧
      (_read_sensor sensorName env t0).modern.sleeps = 5 ∧
      (_read_sensor sensorName env t0).result =
        (legacyRead sensorName env.legacy none).1) := by
  have hcond : (env.modern.importOk &&
      sensorClsFound (pyUpper (pyStrip sensorName)) env.modern &&
      env.modern.constructOk) = true := by
    rw [himp, hcls, hcon]
    rfl
  have hm : modernRead (pyUpper (pyStrip sensorName)) env.modern t0 =
      ((dhtReadLoop env.modern.attempts 5 0).1,
       ⟨(dhtReadLoop env.modern.attempts 5 0).2.1,
        (dhtReadLoop env.modern.attempts 5 0).2.2,
        true, env.modern.teardownExposed⟩,
       none) := by
    rw [modernRead, if_pos hcond]
  have hbounds := dhtReadLoop_bounds env.modern.attempts 5 0
  refine ⟨?_, ?_, ?_⟩
  · simp only [_read_sensor, if_pos hpref, hm]
    cases hres : (dhtReadLoop env.modern.attempts 5 0).1 <;> simp [hres] <;>
      exact hbounds.1
  · simp only [_read_sensor, if_pos hpref, hm]
    cases hres : (dhtReadLoop env.modern.attempts 5 0).1 <;> simp [hres] <;>
      exact hbounds.2
  · intro hfail
    have hloop : dhtReadLoop env.modern.attempts 5 0 = (none, 5, 5) :=
      dhtReadLoop_all_fail env.modern.attempts 5 0 (by simpa using hfail)
    simp only [_read_sensor, if_pos hpref, hm, hloop]
    simp

theorem C1_modern_retry_then_fallback_witness :
    (_read_sensor "AM2302" envModernAllFail none).modern.attemptsMade = 5 ∧
    (_read_sensor "AM2302" envModernAllFail none).modern.sleeps = 5 ∧
    (_read_sensor "AM2302" envModernAllFail none).result =
      (legacyRead "AM2302" envModernAllFail.legacy none).1 :=
  (C1_modern_retry_then_fallback "AM2302" envModernAllFail none
      (Or.inl (by decide)) rfl (by decide) rfl).2.2
    (fun i _ => rfl)

theorem legacyRead_tracker_cases (sensorName : String) (l : LegacyEnv)
    (tr : Option Unit) :
    (legacyRead sensorName l tr).2 = tr ∨ (legacyRead sensorName l tr).2 = none := by
  rw [legacyRead]
  split_ifs
  · exact Or.inl rfl
  · exact Or.inl rfl
  · rcases hrr : l.readRetry with ⟨x, y⟩
    cases x <;> cases y <;> simp

theorem legacyRead_no_driver (sensorName : String) (l : LegacyEnv)
    (tr : Option Unit) (h : l.importOk = false) :
    (legacyRead sensorName l tr).1 =
      .error "no DHT driver available: install \x27adafruit_dht\x27 or \x27Adafruit_DHT\x27" := by
  rw [legacyRead, if_pos h]

theorem legacyRead_no_data (sensorName : String) (l : LegacyEnv)
    (tr : Option Unit) (h1 : l.importOk = true)
    (h2 : legacySensorSupported (pyUpper (pyStrip sensorName)) = true)
    (h3 : l.readRetry.1 = none ∨ l.readRetry.2 = none) :
    (legacyRead sensorName l tr).1 = .error "sensor returned no data" := by
  rw [legacyRead, if_neg (by rw [h1]; simp), if_neg (by rw [h2]; simp)]
  rcases hrr : l.readRetry with ⟨x, y⟩
  rw [hrr] at h3
  cases x <;> cases y <;> simp_all

theorem read_sensor_fallback_result (sensorName : String) (env : Env)
    (t0 : Option Unit)
    (hm : (modernRead (pyUpper (pyStrip sensorName)) env.modern t0).1 = none) :
    ∃ tr, (_read_sensor sensorName env t0).result =
      (legacyRead sensorName env.legacy tr).1 := by
  by_cases hp : (pyLower (pyStrip env.driverPref) = "auto" ∨
      pyLower (pyStrip env.driverPref) = "adafruit")
  · exact ⟨(modernRead (pyUpper (pyStrip sensorName)) env.modern t0).2.2,
      by simp only [_read_sensor, if_pos hp, hm]⟩
  · exact ⟨t0, by simp only [_read_sensor, if_neg hp]⟩

/-- C6: when `_read_sensor` fails it fails with a `RuntimeError` and returns
nothing — specifically the driver-unavailable message when the legacy binding
is not importable, and the `sensor returned no data` message when the legacy
`read_retry` yields a `None` — and the CLI `read` command catches the error,
prints it together with the simulate-mode hint on stderr, and exits with
status 2. -/
theorem C6_error_taxonomy_and_exit (sensorName : String) (env : Env)
    (t0 : Option Unit) :
    (∀ e, (_read_sensor sensorName env t0).result = .error e →
      ∀ n : ℕ, readCmd false false sensorName (fun _ => (0, 0)) (fun _ => env)
          (n + 1) 0 t0 =
        ⟨[], ["Error: " ++ e, "Tip: run with --simulate to produce sample values."],
         some 2⟩) ∧
    ((modernRead (pyUpper (pyStrip sensorName)) env.modern t0).1 = none →
      (env.legacy.importOk = false →
        (_read_sensor sensorName env t0).result =
          .error "no DHT driver available: install \x27adafruit_dht\x27 or \x27Adafruit_DHT\x27") ∧
      (env.legacy.importOk = true →
        legacySensorSupported (pyUpper (pyStrip sensorName)) = true →
        (env.legacy.readRetry.1 = none ∨ env.legacy.readRetry.2 = none) →
        (_read_sensor sensorName env t0).result =
          .error "sensor returned no data")) := by
  constructor
  · intro e he n
    simp only [readCmd, Bool.false_eq_true, if_false]
    rw [he]
  · intro hm
    obtain ⟨tr, htr⟩ := read_sensor_fallback_result sensorName env t0 hm
    constructor
    · intro himp
      rw [htr, legacyRead_no_driver sensorName env.legacy tr himp]
    · intro h1 h2 h3
      rw [htr, legacyRead_no_data sensorName env.legacy tr h1 h2 h3]

theorem C6_error_taxonomy_and_exit_witness :
    readCmd false false "AM2302" (fun _ => (0, 0)) (fun _ => envModernAllFail)
        1 0 none =
      ⟨[], ["Error: no DHT driver available: install \x27adafruit_dht\x27 or \x27Adafruit_DHT\x27",
            "Tip: run with --simulate to produce sample values."], some 2⟩ := by
  have h := (C6_error_taxonomy_and_exit "AM2302" envModernAllFail none).1
    "no DHT driver available: install \x27adafruit_dht\x27 or \x27Adafruit_DHT\x27"
  have he : (_read_sensor "AM2302" envModernAllFail none).result =
      .error "no DHT driver available: install \x27adafruit_dht\x27 or \x27Adafruit_DHT\x27" :=
    ((C6_error_taxonomy_and_exit "AM2302" envModernAllFail none).2 rfl).1 rfl
  exact h he 0

/-- C7: on every exit path of `_read_sensor`, a device constructed by the
modern binding has its teardown invoked exactly when one of the
`exit`/`close`/`deinit`/`shutdown` methods is exposed, and the `_DHT_DEVICE`
tracker ends the call as `None`; if the tracker was `None` on entry it is
`None` on exit on every path, so no GPIO line reservation is left held. -/
theorem C7_device_cleanup (sensorName : String) (env : Env) (t0 : Option Unit) :
    ((_read_sensor sensorName env t0).modern.constructed = true →
      (_read_sensor sensorName env t0).modern.teardownInvoked =
        env.modern.teardownExposed ∧
      (_read_sensor sensorName env t0).tracker = none) ∧
    (t0 = none → (_read_sensor sensorName env t0).tracker = none) := by
  have hleg : ∀ tr : Option Unit,
      (legacyRead sensorName env.legacy tr).2 = tr ∨
      (legacyRead sensorName env.legacy tr).2 = none :=
    fun tr => legacyRead_tracker_cases sensorName env.legacy tr
  by_cases hp : (pyLower (pyStrip env.driverPref) = "auto" ∨
      pyLower (pyStrip env.driverPref) = "adafruit")
  · by_cases hcond : (env.modern.importOk &&
        sensorClsFound (pyUpper (pyStrip sensorName)) env.modern &&
        env.modern.constructOk) = true
    · have hm : modernRead (pyUpper (pyStrip sensorName)) env.modern t0 =
          ((dhtReadLoop env.modern.attempts 5 0).1,
           ⟨(dhtReadLoop env.modern.attempts 5 0).2.1,
            (dhtReadLoop env.modern.attempts 5 0).2.2,
            true, env.modern.teardownExposed⟩,
           none) := by
        rw [modernRead, if_pos hcond]
      simp only [_read_sensor, if_pos hp, hm]
      cases hres : (dhtReadLoop env.modern.attempts 5 0).1 with
      | none =>
        rcases hleg none with h | h <;>
          exact ⟨fun _ => ⟨rfl, h⟩, fun _ => h⟩
      | some v => exact ⟨fun _ => ⟨rfl, rfl⟩, fun _ => rfl⟩
    · have hm : modernRead (pyUpper (pyStrip sensorName)) env.modern t0 =
          (none, emptyTrace, t0) := by
        rw [modernRead, if_neg hcond]
      simp only [_read_sensor, if_pos hp, hm]
      constructor
      · intro hfalse
        exact absurd hfalse (by simp [emptyTrace])
      · intro ht0
        subst ht0
        rcases hleg none with h | h <;> exact h
  · simp only [_read_sensor, if_neg hp]
    constructor
    · intro hfalse
      exact absurd hfalse (by simp [emptyTrace])
    · intro ht0
      subst ht0
      rcases hleg none with h | h <;> exact h

theorem C7_device_cleanup_witness :
    (_read_sensor "AM2302" envModernAllFail none).modern.teardownInvoked =
      envModernAllFail.modern.teardownExposed ∧
    (_read_sensor "AM2302" envModernAllFail none).tracker = none :=
  ⟨((C7_device_cleanup "AM2302" envModernAllFail none).1 rfl).1,
   (C7_device_cleanup "AM2302" envModernAllFail none).2 rfl⟩

theorem clampToEpochAndNow_bounds (ns ne now : ℤ) :
    0 ≤ (clampToEpochAndNow ns ne now).1 ∧ (clampToEpochAndNow ns ne now).2 ≤ now := by
  rw [clampToEpochAndNow]
  split_ifs <;> constructor <;> simp <;> omega

theorem clampToEpochAndNow_width (ns ne now : ℤ) (h : ne - ns ≤ now) :
    (clampToEpochAndNow ns ne now).2 - (clampToEpochAndNow ns ne now).1 = ne - ns := by
  rw [clampToEpochAndNow]
  split_ifs <;> simp <;> omega

theorem clampToEpochAndNow_id (ns ne now : ℤ) (h1 : 0 ≤ ns) (h2 : ne ≤ now) :
    clampToEpochAndNow ns ne now = (ns, ne) := by
  rw [clampToEpochAndNow, if_neg (by omega), if_neg (by omega)]

/-- C10: starting from a well-formed recorded range (`0 ≤ start ≤ end ≤ now`),
any `pan_by_pixels` or `zoom_at` update leaves a range with `0 ≤ start` and
`end ≤ now` — the window never crosses the epoch or the current time — and a
pan always preserves the window width, clamped or not. -/
theorem C10_range_invariant (start_ end_ now : ℤ) (dx w factor : ℚ)
    (mouseX widgetWidth : ℤ)
    (h0 : 0 ≤ start_) (h1 : start_ ≤ end_) (h2 : end_ ≤ now)
    (hf : factor ≠ 0) :
    (0 ≤ (pan_by_pixels start_ end_ dx w now).1 ∧
     (pan_by_pixels start_ end_ dx w now).2 ≤ now ∧
     (pan_by_pixels start_ end_ dx w now).2 -
       (pan_by_pixels start_ end_ dx w now).1 = end_ - start_) ∧
    (0 ≤ (zoom_at start_ end_ factor mouseX widgetWidth now).1 ∧
     (zoom_at start_ end_ factor mouseX widgetWidth now).2 ≤ now) := by
  constructor
  · rw [pan_by_pixels]
    split_ifs with hw
    · exact ⟨h0, h2, rfl⟩
    · have hb := clampToEpochAndNow_bounds
        (start_ + pyInt (dx * (((end_ - start_ : ℤ) : ℚ) / w)))
        (end_ + pyInt (dx * (((end_ - start_ : ℤ) : ℚ) / w))) now
      have hwid := clampToEpochAndNow_width
        (start_ + pyInt (dx * (((end_ - start_ : ℤ) : ℚ) / w)))
        (end_ + pyInt (dx * (((end_ - start_ : ℤ) : ℚ) / w))) now (by omega)
      exact ⟨hb.1, hb.2, by omega⟩
  · rw [zoom_at]
    split_ifs with hww
    · exact ⟨h0, h2⟩
    · exact clampToEpochAndNow_bounds _ _ now

theorem C10_range_invariant_witness :
    (0 ≤ (pan_by_pixels 0 1000 5 100 2000).1 ∧
     (pan_by_pixels 0 1000 5 100 2000).2 ≤ 2000 ∧
     (pan_by_pixels 0 1000 5 100 2000).2 -
       (pan_by_pixels 0 1000 5 100 2000).1 = 1000 - 0) ∧
    (0 ≤ (zoom_at 0 1000 2 50 100 2000).1 ∧
     (zoom_at 0 1000 2 50 100 2000).2 ≤ 2000) :=
  C10_range_invariant 0 1000 2000 5 100 2 50 100 (by norm_num) (by norm_num)
    (by norm_num) (by norm_num)

/-- C8 counterexample: at range `(0, 1000)` with the pointer at pixel 25 of
100 (relative position 1/4, timestamp 250) and `factor = 2`, `zoom_at`
produces `(0, 500)`; the timestamp 250 now sits at relative position 1/2 of
the new range instead of the claimed 1/4, whose value would be 125 — the
pointer timestamp is re-centered, not kept at its relative position. -/
theorem C8_zoom_counterexample :
    zoom_at 0 1000 2 25 100 1000000 = (0, 500) ∧
    ¬ (((zoom_at 0 1000 2 25 100 1000000).1 : ℚ) +
        (25 / 100 : ℚ) * (((zoom_at 0 1000 2 25 100 1000000).2 : ℚ) -
          ((zoom_at 0 1000 2 25 100 1000000).1 : ℚ)) =
       (0 : ℚ) + (25 / 100 : ℚ) * ((1000 : ℚ) - (0 : ℚ))) := by
  have h : zoom_at 0 1000 2 25 100 1000000 = (0, 500) := by
    norm_num [zoom_at, clampToEpochAndNow, pyInt]
  refine ⟨h, ?_⟩
  rw [h]
  norm_num

/-- C8 amended: when the transformed window stays inside `[0, now]` (no
clamping), `pan_by_pixels` shifts both ends by
`int(dx * (end - start) / plot_width)` milliseconds — the pixel delta
converted through `ms_per_pixel` and truncated toward zero by `int()` — and
`zoom_at` returns the window centered on the truncated pointer timestamp
`int(start + (end - start) * rel)` with half-width
`int((end - start) / 2 / factor)`, so the pointer timestamp becomes the
midpoint of the new range rather than keeping its previous relative
position. -/
theorem C8_pan_zoom_amended (start_ end_ now : ℤ) (dx w factor : ℚ)
    (mouseX widgetWidth : ℤ) (hw : 0 < w) (hww : 0 < widgetWidth)
    (hf : factor ≠ 0)
    (hpA : 0 ≤ start_ + pyInt (dx * (((end_ - start_ : ℤ) : ℚ) / w)))
    (hpB : end_ + pyInt (dx * (((end_ - start_ : ℤ) : ℚ) / w)) ≤ now)
    (hzA : 0 ≤ pyInt ((start_ : ℚ) + ((end_ - start_ : ℤ) : ℚ) *
        (max 0 (min 1 ((mouseX : ℚ) / (widgetWidth : ℚ))))) -
      pyInt (((end_ - start_ : ℤ) : ℚ) / 2 / factor))
    (hzB : pyInt ((start_ : ℚ) + ((end_ - start_ : ℤ) : ℚ) *
        (max 0 (min 1 ((mouseX : ℚ) / (widgetWidth : ℚ))))) +
      pyInt (((end_ - start_ : ℤ) : ℚ) / 2 / factor) ≤ now) :
    pan_by_pixels start_ end_ dx w now =
      (start_ + pyInt (dx * (((end_ - start_ : ℤ) : ℚ) / w)),
       end_ + pyInt (dx * (((end_ - start_ : ℤ) : ℚ) / w))) ∧
    zoom_at start_ end_ factor mouseX widgetWidth now =
      (pyInt ((start_ : ℚ) + ((end_ - start_ : ℤ) : ℚ) *
          (max 0 (min 1 ((mouseX : ℚ) / (widgetWidth : ℚ))))) -
        pyInt (((end_ - start_ : ℤ) : ℚ) / 2 / factor),
       pyInt ((start_ : ℚ) + ((end_ - start_ : ℤ) : ℚ) *
          (max 0 (min 1 ((mouseX : ℚ) / (widgetWidth : ℚ))))) +
        pyInt (((end_ - start_ : ℤ) : ℚ) / 2 / factor)) := by
  constructor
  · rw [pan_by_pixels, if_neg (not_le.2 hw)]
    exact clampToEpochAndNow_id _ _ _ hpA hpB
  · rw [zoom_at, if_neg (not_le.2 hww)]
    exact clampToEpochAndNow_id _ _ _ hzA hzB

theorem C8_pan_zoom_amended_witness :
    pan_by_pixels 0 1000 10 100 10000 = (100, 1100) ∧
    zoom_at 0 1000 2 50 100 10000 = (250, 750) := by
  have h := C8_pan_zoom_amended 0 1000 10000 10 100 2 50 100 (by norm_num)
    (by norm_num) (by norm_num) (by norm_num [pyInt]) (by norm_num [pyInt])
    (by norm_num [pyInt]) (by norm_num [pyInt])
  refine ⟨?_, ?_⟩
  · rw [h.1]
    norm_num [pyInt]
  · rw [h.2]
    norm_num [pyInt]
